import Mathlib

/-!
Shallow embedding of the pycont syringe-pump controller (src/pycont) in Lean 4.

Layers follow the source layout:
* `dtprotocol.py` — instruction-packet encoding (`DTCommand`, `DTInstructionPacket`)
  and status-reply decoding (`DTStatus.decode`);
* `pump_protocol.py` — status constants;
* `controller.py` — `C3000Controller` numeric configuration, unit conversions,
  valve positioning, pump/deliver, and the `MultiPumpController` orchestrator.

Python machine-level conventions used throughout:
* Python floats are embedded as exact rationals (`ℚ`);
* `round` is Python 3 `round` (round-half-to-even), embedded as `pyRound`;
* `int(x)` truncation toward zero is embedded as `pyTrunc`;
* an exception escaping a function is embedded as `Except.error` carrying a
  `PyErr` value naming the exception class.
-/

namespace Pycont

/-- Python exception classes that the embedded code can raise. -/
inductive PyErr where
  | communicationError   -- pycont's PumpCommunicationError
  | controllerRepeatedError
  | pumpHWError
  | valueError
  | typeError
  | attributeError
  | keyError
  | indexError
  | zeroDivisionError
  | overflowError
  | recursionError
  deriving DecidableEq, Repr

/-- Result of running a fragment of Python code: a value, or an escaping exception. -/
abbrev PyRes (α : Type) := Except PyErr α

/-- Python 3 `round` on a rational: round half to even (banker's rounding). -/
def pyRound (q : ℚ) : ℤ :=
  let f : ℤ := ⌊q⌋
  let r : ℚ := q - f
  if r < 1/2 then f
  else if 1/2 < r then f + 1
  else if f % 2 = 0 then f else f + 1

/-- Python `int()` applied to a real value: truncation toward zero. -/
def pyTrunc (q : ℚ) : ℤ :=
  if 0 ≤ q then ⌊q⌋ else -⌊-q⌋

/-- Characters stripped by Python's argumentless `str.rstrip()`. -/
def isPyWhitespace (c : Char) : Bool :=
  c = ' ' || c = '\t' || c = '\n' || c = '\r' || c = '\x0b' || c = '\x0c'

/-- Python `s.rstrip()` on a character list. -/
def pyRstripWhitespace (l : List Char) : List Char :=
  (l.reverse.dropWhile isPyWhitespace).reverse

/-- Python `s.rstrip(c)` (strip every trailing occurrence of `c`). -/
def pyRstripChar (c : Char) (l : List Char) : List Char :=
  (l.reverse.dropWhile (· = c)).reverse

/-- Python `s.lstrip(c)` (strip every leading occurrence of `c`). -/
def pyLstripChar (c : Char) (l : List Char) : List Char :=
  l.dropWhile (· = c)

/-- The DT protocol start marker `DTStart = '/'`. -/
def DTStart : Char := '/'

/-- The stripping pipeline shared by `DTStatus.decode` and
`C3000Controller.parse_reply`: `response.rstrip().rstrip('\x03').lstrip(DTStart)`. -/
def pyStripReply (s : String) : List Char :=
  pyLstripChar DTStart (pyRstripChar '\x03' (pyRstripWhitespace s.toList))

/-! ### dtprotocol.py: DTCommand and DTInstructionPacket -/

/-- `DTCommand`: a command code string plus an optional operand string
(`dtprotocol.py`, `class DTCommand`). -/
structure DTCommand where
  command : String
  operand : Option String
  deriving DecidableEq, Repr

/-- `DTCommand.to_string`: the command's bytes followed by the operand's bytes
when an operand is present (`to_array`/`to_string` in `dtprotocol.py`). -/
def DTCommand.to_string (c : DTCommand) : String :=
  c.command ++ c.operand.getD ""

/-- `DTInstructionPacket`: an address plus an ordered list of commands
(`dtprotocol.py`, `class DTInstructionPacket`). -/
structure DTInstructionPacket where
  address : String
  dtcommands : List DTCommand
  deriving DecidableEq, Repr

/-- `DTInstructionPacket.to_string`: start marker, then the address bytes, then
every command's encoding concatenated in order (`to_array`/`to_string`). -/
def DTInstructionPacket.to_string (p : DTInstructionPacket) : String :=
  "/" ++ p.address ++ String.join (p.dtcommands.map DTCommand.to_string)

/-- The concatenation of a packet's command/operand bytes, without framing. -/
def DTInstructionPacket.body (p : DTInstructionPacket) : String :=
  String.join (p.dtcommands.map DTCommand.to_string)

/-! ### dtprotocol.py: DTStatus.decode -/

/-- The possible outcomes of `DTStatus(response).decode()`:
a decoded `(address, status, data)` triple; the graceful `None` return
(taken when the constructor caught `UnicodeDecodeError` and stored
`response = None`); or an `IndexError` escaping from `info[0]`/`info[1]`
(the `try/except IndexError` around those subscripts is commented out in the
source, so the exception propagates). -/
inductive DTDecodeOutcome where
  | reply (address status : Char) (data : String)
  | noneReturned
  | indexErrorRaised
  deriving DecidableEq, Repr

/-- `DTStatus.decode`. The argument is the constructor's stored `self.response`:
`none` when the raw bytes could not be decoded as text (`UnicodeDecodeError`),
otherwise the decoded string. The body strips
`rstrip().rstrip('\x03').lstrip(DTStart)` and then subscripts `info[0]`,
`info[1]`, `info[2:]`; with fewer than 2 characters the subscript raises. -/
def dtStatusDecode (response : Option String) : DTDecodeOutcome :=
  match response with
  | none => .noneReturned
  | some s =>
    match pyStripReply s with
    | address :: status :: data => .reply address status (String.mk data)
    | _ => .indexErrorRaised

/-! ### pump_protocol.py: status constants -/

/-- `STATUS_IDLE_ERROR_FREE = '`'` (backquote), a one-character Python string. -/
def STATUS_IDLE_ERROR_FREE : String := "\x60"

/-- `STATUS_BUSY_ERROR_FREE = '@'`, a one-character Python string. -/
def STATUS_BUSY_ERROR_FREE : String := "@"

/-- Modelled from the spec: `pump_protocol.ERROR_STATUSES_IDLE`, the recognized
idle-with-error status characters, is referenced by `controller.py`
(`autodiscover_address`, `is_idle`) but is not defined anywhere under `src/`;
the spec names the eight known fault letters `a,b,c,f,g,i,j,k`. -/
def ERROR_STATUSES_IDLE : List String :=
  ["a", "b", "c", "f", "g", "i", "j", "k"]

/-- Modelled from the spec: `pump_protocol.ERROR_STATUSES_BUSY`, the recognized
busy-with-error status characters, also referenced by `controller.py` but
absent from `src/`; modelled as the upper-case forms of the eight fault
letters. (In `autodiscover_address` this set is unreachable anyway, because
Python's `A or B` with a non-empty `A` returns `A`.) -/
def ERROR_STATUSES_BUSY : List String :=
  ["A", "B", "C", "F", "G", "I", "J", "K"]

/-! ### controller.py: module-level constants -/

/-- `C3000SwitchToAddress`: the 15-entry dial-position → wire-address table,
in source (insertion) order. -/
def C3000SwitchToAddress : List (Char × Char) :=
  [('0', '1'), ('1', '2'), ('2', '3'), ('3', '4'), ('4', '5'),
   ('5', '6'), ('6', '7'), ('7', '8'), ('8', '9'), ('9', ':'),
   ('A', ';'), ('B', '<'), ('C', '='), ('D', '>'), ('E', '?')]

/-- `VALVE_INPUT = 'I'` (valve positions are one-character strings; embedded as `Char`). -/
def VALVE_INPUT : Char := 'I'
/-- `VALVE_OUTPUT = 'O'`. -/
def VALVE_OUTPUT : Char := 'O'
/-- `VALVE_BYPASS = 'B'`. -/
def VALVE_BYPASS : Char := 'B'
/-- `VALVE_EXTRA = 'E'`. -/
def VALVE_EXTRA : Char := 'E'
/-- `VALVE_6WAY_LIST = ['1','2','3','4','5','6']`. -/
def VALVE_6WAY_LIST : List Char := ['1', '2', '3', '4', '5', '6']

/-- `MICRO_STEP_MODE_0 = 0`. -/
def MICRO_STEP_MODE_0 : ℕ := 0
/-- `MICRO_STEP_MODE_2 = 2`. -/
def MICRO_STEP_MODE_2 : ℕ := 2
/-- `N_STEP_MICRO_STEP_MODE_0 = 3000`. -/
def N_STEP_MICRO_STEP_MODE_0 : ℕ := 3000
/-- `N_STEP_MICRO_STEP_MODE_2 = 24000`. -/
def N_STEP_MICRO_STEP_MODE_2 : ℕ := 24000
/-- `MAX_TOP_VELOCITY_MICRO_STEP_MODE_0 = 6000`. -/
def MAX_TOP_VELOCITY_MICRO_STEP_MODE_0 : ℤ := 6000
/-- `MAX_TOP_VELOCITY_MICRO_STEP_MODE_2 = 48000`. -/
def MAX_TOP_VELOCITY_MICRO_STEP_MODE_2 : ℤ := 48000
/-- `MAX_REPEAT_OPERATION = 10`. -/
def MAX_REPEAT_OPERATION : ℕ := 10

/-! ### controller.py: C3000Controller numeric configuration -/

/-- The controller-side configuration fields set by `C3000Controller.__init__`
(connection handling, logging and address discovery are external I/O and are
modelled separately). -/
structure C3000 where
  micro_step_mode : ℕ
  number_of_steps : ℕ
  total_volume : ℚ
  steps_per_ml : ℤ
  default_top_velocity : ℤ
  deriving DecidableEq, Repr

/-- `C3000Controller.validate_top_velocity`: `velocity in range(1, max_range + 1)`
for the mode's maximum; an unsupported mode raises `ValueError`. -/
def validate_top_velocity (micro_step_mode : ℕ) (velocity : ℤ) : PyRes Bool :=
  if micro_step_mode = MICRO_STEP_MODE_0 then
    .ok (decide (1 ≤ velocity ∧ velocity ≤ MAX_TOP_VELOCITY_MICRO_STEP_MODE_0))
  else if micro_step_mode = MICRO_STEP_MODE_2 then
    .ok (decide (1 ≤ velocity ∧ velocity ≤ MAX_TOP_VELOCITY_MICRO_STEP_MODE_2))
  else
    .error .valueError

/-- The numeric part of `C3000Controller.__init__`: pick `number_of_steps` from
the microstep mode (`ValueError` on an unsupported mode), set
`total_volume = float(total_volume)`, compute
`steps_per_ml = int(number_of_steps / total_volume)` (`ZeroDivisionError` on a
zero volume), and set `default_top_velocity` through the `__setattr__` hook,
which replaces an invalid velocity by `1000`. -/
def mkC3000 (total_volume : ℚ) (micro_step_mode : ℕ) (top_velocity : ℤ) :
    PyRes C3000 := do
  let number_of_steps ←
    if micro_step_mode = MICRO_STEP_MODE_0 then pure N_STEP_MICRO_STEP_MODE_0
    else if micro_step_mode = MICRO_STEP_MODE_2 then pure N_STEP_MICRO_STEP_MODE_2
    else .error .valueError
  if total_volume = 0 then .error .zeroDivisionError
  else do
    let steps_per_ml := pyTrunc ((number_of_steps : ℚ) / total_volume)
    let valid ← validate_top_velocity micro_step_mode top_velocity
    let default_top_velocity := if valid then top_velocity else 1000
    pure { micro_step_mode, number_of_steps, total_volume, steps_per_ml,
           default_top_velocity }

/-- `C3000Controller.volume_to_step`: `int(round(volume_in_ml * self.steps_per_ml))`. -/
def volume_to_step (c : C3000) (volume_in_ml : ℚ) : ℤ :=
  pyRound (volume_in_ml * c.steps_per_ml)

/-- `C3000Controller.step_to_volume`: `step / float(self.steps_per_ml)` (exact here). -/
def step_to_volume (c : C3000) (step : ℤ) : ℚ :=
  (step : ℚ) / (c.steps_per_ml : ℚ)

/-- `C3000Controller.flowrate_to_speed`:
`total_volume * 6000 / flowrate` in mode 0, `total_volume * 48000 / flowrate`
in mode 2, `ValueError` otherwise; a zero flowrate raises `ZeroDivisionError`. -/
def flowrate_to_speed (c : C3000) (flowrate : ℚ) : PyRes ℚ :=
  if c.micro_step_mode = MICRO_STEP_MODE_0 then
    if flowrate = 0 then .error .zeroDivisionError
    else .ok (c.total_volume * 6000 / flowrate)
  else if c.micro_step_mode = MICRO_STEP_MODE_2 then
    if flowrate = 0 then .error .zeroDivisionError
    else .ok (c.total_volume * 48000 / flowrate)
  else .error .valueError

/-- `C3000Controller.speed_to_flowrate`:
`total_volume / 6000 * speed` in mode 0, `total_volume / 48000 * speed` in
mode 2, `ValueError` otherwise. -/
def speed_to_flowrate (c : C3000) (speed : ℚ) : PyRes ℚ :=
  if c.micro_step_mode = MICRO_STEP_MODE_0 then
    .ok (c.total_volume / 6000 * speed)
  else if c.micro_step_mode = MICRO_STEP_MODE_2 then
    .ok (c.total_volume / 48000 * speed)
  else .error .valueError

/-! ### controller.py: request/response and address discovery -/

/-- `C3000Controller.write_and_read_from_pump`, given the raw reply string the
transport produced for the written packet. `parse_reply` strips
`rstrip().rstrip('\x03').lstrip(DTStart)`; an empty parsed reply raises
`PumpCommunicationError`; a one-character reply raises `IndexError` at
`response[1]`; otherwise the function returns `(status, data)` =
`(response[1], response[2:])`. -/
def write_and_read_from_pump (raw_reply : String) : PyRes (Char × String) :=
  match pyStripReply raw_reply with
  | [] => .error .communicationError
  | [_] => .error .indexError
  | _ :: status :: data => .ok (status, String.mk data)

/-- A Python value appearing in `autodiscover_address`'s comparisons: either a
string constant or the `(status, data)` tuple returned by
`write_and_read_from_pump`. -/
inductive PyVal where
  | pystr (s : String)
  | pytuple (status : Char) (data : String)
  deriving DecidableEq, Repr

/-- Python `==` on those values: structural on equal types, `False` across
types (a tuple never equals a string). -/
def pyValEq : PyVal → PyVal → Bool
  | .pystr a, .pystr b => a = b
  | .pytuple a b, .pytuple x y => a = x && b = y
  | _, _ => false

/-- The loop body of `C3000Controller.autodiscover_address` over the remaining
table entries. For each candidate address the status-query reply is obtained
(`write_and_read_from_pump`; its exceptions propagate uncaught) and compared:
`reply in (STATUS_IDLE_ERROR_FREE, STATUS_BUSY_ERROR_FREE)` compares the
`(status, data)` tuple with each string; then
`reply in (ERROR_STATUSES_IDLE or ERROR_STATUSES_BUSY)` — Python's `or`
returns its first operand because `ERROR_STATUSES_IDLE` is non-empty, so
membership is tested in `ERROR_STATUSES_IDLE` alone. Falling off the loop end
returns Python's implicit `None`. -/
def autodiscoverLoop (device_replies : Char → String) :
    List (Char × Char) → PyRes (Option Char)
  | [] => .ok none
  | (_, address) :: rest =>
    match write_and_read_from_pump (device_replies address) with
    | .error e => .error e
    | .ok (status, data) =>
      let reply := PyVal.pytuple status data
      if pyValEq reply (.pystr STATUS_IDLE_ERROR_FREE) ||
         pyValEq reply (.pystr STATUS_BUSY_ERROR_FREE) then
        .ok (some address)
      else if ERROR_STATUSES_IDLE.any (fun s => pyValEq reply (.pystr s)) then
        .ok (some address)
      else
        autodiscoverLoop device_replies rest

/-- `C3000Controller.autodiscover_address`: iterate `C3000SwitchToAddress` in
table order. `device_replies a` is the raw transport reply to a status query
addressed to `a` (the empty string when the device does not answer). -/
def autodiscover_address (device_replies : Char → String) : PyRes (Option Char) :=
  autodiscoverLoop device_replies C3000SwitchToAddress

/-! ### controller.py: device-visible events and per-pump device state -/

/-- Commands and queries a controller operation sends to its pump, in order. -/
inductive Ev where
  | reportValvePosition (raw : Char)  -- a `?6` valve-position query and its raw reply
  | valveMove (target : Char)         -- an `I`/`O`/`B`/`E`/`I<n>` valve move command
  | waitReady                         -- a blocking `wait_till_ready` poll loop
  | reportTopVelocity                 -- a `?2` top-velocity query
  | setTopVelocity (v : ℤ)            -- a `V<n>` top-velocity command
  | reportPlungerPosition             -- a `?` plunger-position query
  | pumpSteps (n : ℤ)                 -- a `P<n>` pump command
  | deliverSteps (n : ℤ)              -- a `D<n>` deliver command
  deriving DecidableEq, Repr

/-- Device-side state of one pump: the hardware is the source of truth for the
plunger position and the configured top velocity; valve-position queries are
answered from the device's reply stream `valve_replies`, of which
`valve_idx` replies have been consumed so far. -/
structure PumpDev where
  current_steps : ℤ
  top_velocity : ℤ
  valve_replies : ℕ → Char
  valve_idx : ℕ

/-- `C3000Controller.get_valve_position`: map the raw reply character to the
valve-position token, `none` when the raw value is unknown (`ValueError`). -/
def get_valve_position_decode (raw : Char) : Option Char :=
  if raw = 'i' then some VALVE_INPUT
  else if raw = 'o' then some VALVE_OUTPUT
  else if raw = 'b' then some VALVE_BYPASS
  else if raw = 'e' then some VALVE_EXTRA
  else if VALVE_6WAY_LIST.contains raw then some raw
  else none

/-- Whether `set_valve_position` can forge a move packet for this target
(the `if/elif` chain over `VALVE_INPUT/OUTPUT/BYPASS/EXTRA/VALVE_6WAY_LIST`);
any other target raises `ValueError`. -/
def is_known_valve_position (t : Char) : Bool :=
  t = VALVE_INPUT || t = VALVE_OUTPUT || t = VALVE_BYPASS || t = VALVE_EXTRA ||
    VALVE_6WAY_LIST.contains t

/-- The retry loop of `C3000Controller.set_valve_position`, with the device's
valve-reply stream, the reply index, and the remaining attempt budget made
explicit. Each iteration: query the position (`get_valve_position`; an unknown
raw reply raises `ValueError`); succeed if it equals the target; otherwise
forge the move packet (`ValueError` for an unknown target), write it, return
`True` at once when `secure` is false, else `wait_till_ready` and try again.
An exhausted budget raises `ControllerRepeatedError`. -/
def svpLoop (valve_replies : ℕ → Char) (target : Char) (secure : Bool) :
    ℕ → ℕ → PyRes Bool × List Ev
  | _, 0 => (.error .controllerRepeatedError, [])
  | i, fuel + 1 =>
    let raw := valve_replies i
    match get_valve_position_decode raw with
    | none => (.error .valueError, [.reportValvePosition raw])
    | some pos =>
      if pos = target then (.ok true, [.reportValvePosition raw])
      else if is_known_valve_position target then
        if secure then
          let (res, evs) := svpLoop valve_replies target secure (i + 1) fuel
          (res, .reportValvePosition raw :: .valveMove target :: .waitReady :: evs)
        else (.ok true, [.reportValvePosition raw, .valveMove target])
      else (.error .valueError, [.reportValvePosition raw])

/-- `C3000Controller.set_valve_position(valve_position, max_repeat, secure)`,
returning the result together with the device-visible event trace. -/
def set_valve_position (valve_replies : ℕ → Char) (valve_position : Char)
    (max_repeat : ℕ) (secure : Bool) : PyRes Bool × List Ev :=
  svpLoop valve_replies valve_position secure 0 max_repeat

/-- Number of valve-position queries in a trace (how many device replies were
consumed). -/
def countValveQueries (evs : List Ev) : ℕ :=
  evs.countP fun e => match e with | .reportValvePosition _ => true | _ => false

/-- Number of valve move commands in a trace. -/
def countValveMoves (evs : List Ev) : ℕ :=
  evs.countP fun e => match e with | .valveMove _ => true | _ => false

/-! ### controller.py: velocity handling and pump/deliver -/

/-- The `top_velocity` property setter: validate against the mode's range
(`ValueError` for an unsupported mode); if valid, send the velocity command
(the device records it); otherwise only log a warning. -/
def top_velocity_setter (c : C3000) (d : PumpDev) (velocity : ℤ) :
    PyRes Unit × PumpDev × List Ev :=
  match validate_top_velocity c.micro_step_mode velocity with
  | .error e => (.error e, d, [])
  | .ok true => (.ok (), { d with top_velocity := velocity }, [.setTopVelocity velocity])
  | .ok false => (.ok (), d, [])

/-- `C3000Controller.ensure_default_top_velocity`: read the `top_velocity`
property (a device query) and assign the default through the setter when it
differs. -/
def ensure_default_top_velocity (c : C3000) (d : PumpDev) :
    PyRes Unit × PumpDev × List Ev :=
  if d.top_velocity ≠ c.default_top_velocity then
    let (r, d', evs) := top_velocity_setter c d c.default_top_velocity
    (r, d', .reportTopVelocity :: evs)
  else (.ok (), d, [.reportTopVelocity])

/-- `set_valve_position` as an operation on the device state: run the retry
loop on the device's valve-reply stream and advance the consumed-reply index. -/
def set_valve_position_op (target : Char) (secure : Bool) (d : PumpDev) :
    PyRes Bool × PumpDev × List Ev :=
  let (res, evs) := svpLoop d.valve_replies target secure d.valve_idx MAX_REPEAT_OPERATION
  (res, { d with valve_idx := d.valve_idx + countValveQueries evs }, evs)

/-- `C3000Controller.pump(volume_in_ml, from_valve, speed_in, wait, secure)`.
`is_volume_pumpable` queries the plunger position and compares
`volume_to_step(volume) ≤ remaining_steps`; on failure the call returns
`False` having issued nothing else. Otherwise: speed override or default
restore, optional valve repositioning, the `P` pump command for the computed
step count (the device's plunger advances by it), and an optional blocking
wait. -/
def C3000pump (c : C3000) (d : PumpDev) (volume_in_ml : ℚ)
    (from_valve : Option Char) (speed_in : Option ℤ) (wait secure : Bool) :
    PyRes Bool × PumpDev × List Ev :=
  if ¬ (volume_to_step c volume_in_ml ≤ (c.number_of_steps : ℤ) - d.current_steps) then
    (.ok false, d, [.reportPlungerPosition])
  else
    let (r1, d1, t1) :=
      match speed_in with
      | some sp => top_velocity_setter c d sp
      | none => ensure_default_top_velocity c d
    match r1 with
    | .error e => (.error e, d1, .reportPlungerPosition :: t1)
    | .ok _ =>
      let (r2, d2, t2) :=
        match from_valve with
        | some fv =>
          let (res, d2, evs) := set_valve_position_op fv secure d1
          (res.map fun _ => (), d2, evs)
        | none => (.ok (), d1, [])
      match r2 with
      | .error e => (.error e, d2, .reportPlungerPosition :: (t1 ++ t2))
      | .ok _ =>
        let steps_to_pump := volume_to_step c volume_in_ml
        let d3 := { d2 with current_steps := d2.current_steps + steps_to_pump }
        let t3 := [Ev.pumpSteps steps_to_pump] ++ if wait then [Ev.waitReady] else []
        (.ok true, d3, .reportPlungerPosition :: (t1 ++ t2 ++ t3))

/-- `C3000Controller.deliver(volume_in_ml, to_valve, speed_out, wait, secure)`.
`is_volume_deliverable` compares `volume_to_step(volume) ≤ current_steps`; a
zero volume then succeeds immediately; otherwise mirror of `pump` with the `D`
deliver command (the plunger retreats by the step count). -/
def C3000deliver (c : C3000) (d : PumpDev) (volume_in_ml : ℚ)
    (to_valve : Option Char) (speed_out : Option ℤ) (wait secure : Bool) :
    PyRes Bool × PumpDev × List Ev :=
  if ¬ (volume_to_step c volume_in_ml ≤ d.current_steps) then
    (.ok false, d, [.reportPlungerPosition])
  else if volume_in_ml = 0 then
    (.ok true, d, [.reportPlungerPosition])
  else
    let (r1, d1, t1) :=
      match speed_out with
      | some sp => top_velocity_setter c d sp
      | none => ensure_default_top_velocity c d
    match r1 with
    | .error e => (.error e, d1, .reportPlungerPosition :: t1)
    | .ok _ =>
      let (r2, d2, t2) :=
        match to_valve with
        | some tv =>
          let (res, d2, evs) := set_valve_position_op tv secure d1
          (res.map fun _ => (), d2, evs)
        | none => (.ok (), d1, [])
      match r2 with
      | .error e => (.error e, d2, .reportPlungerPosition :: (t1 ++ t2))
      | .ok _ =>
        let steps_to_deliver := volume_to_step c volume_in_ml
        let d3 := { d2 with current_steps := d2.current_steps - steps_to_deliver }
        let t3 := [Ev.deliverSteps steps_to_deliver] ++ if wait then [Ev.waitReady] else []
        (.ok true, d3, .reportPlungerPosition :: (t1 ++ t2 ++ t3))

/-- `C3000Controller.remaining_volume`: `total_volume - current_volume`, where
`current_volume = step_to_volume(current_steps)` is queried live. -/
def remaining_volume (c : C3000) (d : PumpDev) : ℚ :=
  c.total_volume - step_to_volume c d.current_steps

/-! ### controller.py: MultiPumpController -/

/-- The orchestrator's pump mapping: name → (configuration, device state),
insertion-ordered like a Python dict. -/
abbrev PumpMap := List (String × C3000 × PumpDev)

/-- `self.pumps[name]` lookup. -/
def lookupPump (pumps : PumpMap) (name : String) : Option (C3000 × PumpDev) :=
  (pumps.find? fun e => e.1 = name).map fun e => e.2

/-- Replace the device state recorded for `name`. -/
def updatePump (pumps : PumpMap) (name : String) (d : PumpDev) : PumpMap :=
  pumps.map fun e => if e.1 = name then (e.1, e.2.1, d) else e

/-- `MultiPumpController.get_pumps`: the pumps named in `pump_names`, a
`KeyError` for an absent name being caught and skipped (`except KeyError: pass`). -/
def get_pumps (pumps : PumpMap) (pump_names : List String) : List (C3000 × PumpDev) :=
  pump_names.filterMap (lookupPump pumps)

/-- `MultiPumpController.apply_command_to_pumps`: invoke the operation on
`self.pumps[pump_name]` for each listed name in order, building the name →
result mapping. `self.pumps[pump_name]` raises `KeyError` on an absent name
(there is no handler here), which aborts the fan-out; an exception from the
operation itself also propagates. The trace tags each event with the pump it
was sent to. -/
def apply_command_to_pumps (pumps : PumpMap) (pump_names : List String)
    (op : C3000 → PumpDev → PyRes α × PumpDev × List Ev) :
    PyRes (List (String × α)) × PumpMap × List (String × Ev) :=
  match pump_names with
  | [] => (.ok [], pumps, [])
  | n :: rest =>
    match lookupPump pumps n with
    | none => (.error .keyError, pumps, [])
    | some (c, d) =>
      match op c d with
      | (.error e, d', evs) =>
        (.error e, updatePump pumps n d', evs.map fun ev => (n, ev))
      | (.ok a, d', evs) =>
        let (res, pumps'', evss) :=
          apply_command_to_pumps (updatePump pumps n d') rest op
        match res with
        | .error e => (.error e, pumps'', (evs.map fun ev => (n, ev)) ++ evss)
        | .ok ras => (.ok ((n, a) :: ras), pumps'', (evs.map fun ev => (n, ev)) ++ evss)

/-- The operation dispatched by the velocity phase of `MultiPumpController.pump`
and `.deliver` (their first fan-out). With a speed given, the command name is
`'set_top_velocity'`, an attribute `C3000Controller` does not have
(`top_velocity` is a property), so `getattr` raises `AttributeError`; with no
speed, `ensure_default_top_velocity` is called with a `secure=` keyword
argument its signature does not accept, so the call raises `TypeError`. Either
way the exception escapes before any device command is sent. -/
def velocity_fanout_op (speed : Option ℤ) :
    C3000 → PumpDev → PyRes Unit × PumpDev × List Ev :=
  fun _ d =>
    match speed with
    | some _ => (.error .attributeError, d, [])
    | none => (.error .typeError, d, [])

/-- Sequencing for result × state × trace triples: propagate an exception,
otherwise continue and concatenate traces. -/
def mseq (x : PyRes α × σ × List τ) (f : α → σ → PyRes β × σ × List τ) :
    PyRes β × σ × List τ :=
  match x with
  | (.error e, s, t) => (.error e, s, t)
  | (.ok a, s, t) =>
    match f a s with
    | (r, s', t') => (r, s', t ++ t')

/-- A finite volume, or `none` embedding the Python float `inf` that
`MultiPumpController.transfer` starts its minimum fold from. -/
abbrev PyVolume := Option ℚ

/-- The per-pump operation of the third fan-out of `MultiPumpController.pump`:
`pump(volume_in_ml, speed_in=speed_in, wait=False)`. An infinite volume
reaches `int(round(inf * steps_per_ml))` inside `is_volume_pumpable`, which
raises `OverflowError`. -/
def pump_fanout_op (volume : PyVolume) (speed_in : Option ℤ) :
    C3000 → PumpDev → PyRes Bool × PumpDev × List Ev :=
  fun c d =>
    match volume with
    | none => (.error .overflowError, d, [])
    | some q => C3000pump c d q none speed_in false true

/-- The per-pump operation of the third fan-out of `MultiPumpController.deliver`:
`deliver(volume_in_ml, speed_out=speed_out, wait=False)`. -/
def deliver_fanout_op (volume : PyVolume) (speed_out : Option ℤ) :
    C3000 → PumpDev → PyRes Bool × PumpDev × List Ev :=
  fun c d =>
    match volume with
    | none => (.error .overflowError, d, [])
    | some q => C3000deliver c d q none speed_out false true

/-- The per-pump `wait_till_ready` operation (a blocking status poll). -/
def wait_fanout_op : C3000 → PumpDev → PyRes Unit × PumpDev × List Ev :=
  fun _ d => (.ok (), d, [.waitReady])

/-- `MultiPumpController.pump(pump_names, volume_in_ml, from_valve, speed_in,
wait, secure)`: the velocity fan-out (which raises, see `velocity_fanout_op`),
the optional `set_valve_position` fan-out, the `pump` fan-out, and the
optional `wait_till_ready` fan-out. -/
def multi_pump (pumps : PumpMap) (pump_names : List String) (volume_in_ml : PyVolume)
    (from_valve : Option Char) (speed_in : Option ℤ) (wait secure : Bool) :
    PyRes Unit × PumpMap × List (String × Ev) :=
  mseq (apply_command_to_pumps pumps pump_names (velocity_fanout_op speed_in))
    fun _ pumps1 =>
  mseq (match from_valve with
        | some fv => apply_command_to_pumps pumps1 pump_names
            (fun _ d => set_valve_position_op fv secure d)
        | none => (.ok [], pumps1, []))
    fun _ pumps2 =>
  mseq (apply_command_to_pumps pumps2 pump_names (pump_fanout_op volume_in_ml speed_in))
    fun _ pumps3 =>
  mseq (if wait then apply_command_to_pumps pumps3 pump_names wait_fanout_op
        else (.ok [], pumps3, []))
    fun _ pumps4 => (.ok (), pumps4, [])

/-- `MultiPumpController.deliver(pump_names, volume_in_ml, to_valve, speed_out,
wait, secure)`: mirror of `multi_pump`. -/
def multi_deliver (pumps : PumpMap) (pump_names : List String) (volume_in_ml : PyVolume)
    (to_valve : Option Char) (speed_out : Option ℤ) (wait secure : Bool) :
    PyRes Unit × PumpMap × List (String × Ev) :=
  mseq (apply_command_to_pumps pumps pump_names (velocity_fanout_op speed_out))
    fun _ pumps1 =>
  mseq (match to_valve with
        | some tv => apply_command_to_pumps pumps1 pump_names
            (fun _ d => set_valve_position_op tv secure d)
        | none => (.ok [], pumps1, []))
    fun _ pumps2 =>
  mseq (apply_command_to_pumps pumps2 pump_names (deliver_fanout_op volume_in_ml speed_out))
    fun _ pumps3 =>
  mseq (if wait then apply_command_to_pumps pumps3 pump_names wait_fanout_op
        else (.ok [], pumps3, []))
    fun _ pumps4 => (.ok (), pumps4, [])

/-- The chunk fold at the top of `MultiPumpController.transfer`:
`volume_transferred = float('inf')` (embedded as `none`), then for every pump
in `get_pumps(pump_names)`:
`volume_transferred = min(min(volume_in_ml, pump.remaining_volume), volume_transferred)`
(`min x inf = x` absorbs the initial value). -/
def groupChunk (pumps : PumpMap) (pump_names : List String) (volume_in_ml : ℚ) :
    PyVolume :=
  (get_pumps pumps pump_names).foldl
    (fun acc p =>
      match acc with
      | none => some (min volume_in_ml (remaining_volume p.1 p.2))
      | some vt => some (min (min volume_in_ml (remaining_volume p.1 p.2)) vt))
    none

/-- `MultiPumpController.transfer(pump_names, volume_in_ml, from_valve,
to_valve, speed_in, speed_out, secure)`: compute the synchronized chunk, run
the blocking group pump phase then the blocking group deliver phase for it,
and recurse on the remainder while it is positive (the recursive call omits
`secure`, so it reverts to its default `True`). The fuel models Python's
recursion limit (`RecursionError` when exhausted); a `none` chunk makes the
remainder `volume - inf = -inf`, which stops the recursion. -/
def multi_transfer (pumps : PumpMap) (pump_names : List String) (volume_in_ml : ℚ)
    (from_valve to_valve : Char) (speed_in speed_out : Option ℤ) (secure : Bool) :
    ℕ → PyRes Unit × PumpMap × List (String × Ev)
  | 0 => (.error .recursionError, pumps, [])
  | fuel + 1 =>
    let volume_transferred := groupChunk pumps pump_names volume_in_ml
    mseq (multi_pump pumps pump_names volume_transferred (some from_valve)
            speed_in true secure)
      (fun _ pumps1 =>
    mseq (multi_deliver pumps1 pump_names volume_transferred (some to_valve)
            speed_out true secure)
      (fun _ pumps2 =>
        match volume_transferred with
        | none => (.ok (), pumps2, [])
        | some vt =>
          if volume_in_ml - vt > 0 then
            multi_transfer pumps2 pump_names (volume_in_ml - vt) from_valve to_valve
              speed_in speed_out true fuel
          else (.ok (), pumps2, [])))

/-! ### Concrete inputs used to exercise the embedding -/

/-- A transport that answers a valid idle-error-free status reply only for the
wire address `'='` (dial position `'C'`) and stays silent (empty reply) for
every other candidate. -/
def deviceOnlyAtDialC : Char → String :=
  fun a => if a = '=' then "/0\x60\r" else ""

/-- A transport that answers a valid idle-error-free status reply at every
address. -/
def deviceAlwaysIdle : Char → String :=
  fun _ => "/0\x60\r"

/-- The configuration `C3000Controller("A", …, total_volume=2.0)` produces in
microstep mode 2: 24000 steps, `steps_per_ml = 12000`. -/
def pumpConfigA : C3000 :=
  { micro_step_mode := 2, number_of_steps := 24000, total_volume := 2,
    steps_per_ml := 12000, default_top_velocity := 6000 }

/-- The configuration for `total_volume=5.0` in microstep mode 2:
`steps_per_ml = 4800`. -/
def pumpConfigB : C3000 :=
  { micro_step_mode := 2, number_of_steps := 24000, total_volume := 5,
    steps_per_ml := 4800, default_top_velocity := 6000 }

/-- The configuration for `total_volume=1.0` in microstep mode 2:
`steps_per_ml = 24000`. -/
def pumpConfig24 : C3000 :=
  { micro_step_mode := 2, number_of_steps := 24000, total_volume := 1,
    steps_per_ml := 24000, default_top_velocity := 6000 }

/-- The configuration for `total_volume=48000.0` (larger than the 24000 steps)
in microstep mode 2: `steps_per_ml = int(24000/48000.0) = 0`. -/
def pumpConfigOversize : C3000 :=
  { micro_step_mode := 2, number_of_steps := 24000, total_volume := 48000,
    steps_per_ml := 0, default_top_velocity := 6000 }

/-- A pump device with an empty syringe (plunger at step 0), the default top
velocity already configured, and a valve that always reports input position. -/
def devIdle : PumpDev :=
  { current_steps := 0, top_velocity := 6000, valve_replies := fun _ => 'i',
    valve_idx := 0 }

/-- The two-pump orchestrator of spec §8.6: remaining volumes `2.0` and `5.0`
(both syringes empty, so remaining = total). -/
def scenarioPumps : PumpMap :=
  [("A", pumpConfigA, devIdle), ("B", pumpConfigB, devIdle)]

/-! ## Theorems -/

/-- C9 (counterexample): instruction-packet encoding is not injective with
respect to semantics. The packet with single command code `"?"` and operand
`"1"` and the packet with command code `"?1"` and no operand (both shapes the
codebase really forges: `forge_report_plunger_position_packet` uses `'?'`,
`forge_report_start_velocity_packet` uses `'?1'`) encode to the same byte
string `"/1?1"` yet differ in their command/operand sequence. -/
theorem C9_counterexample :
    DTInstructionPacket.to_string ⟨"1", [⟨"?", some "1"⟩]⟩ =
      DTInstructionPacket.to_string ⟨"1", [⟨"?1", none⟩]⟩ ∧
    (⟨"1", [⟨"?", some "1"⟩]⟩ : DTInstructionPacket) ≠ ⟨"1", [⟨"?1", none⟩]⟩ := by
  exact ⟨rfl, by decide⟩

/-- C9 (amended): encoding determines the address (for the single-character
addresses the protocol uses) and the concatenated command/operand byte
sequence, but not the command/operand decomposition: two packets with equal
encodings have the same address and the same flattened body. -/
theorem C9_encoding_determines_address_and_body
    (p q : DTInstructionPacket)
    (hp : p.address.length = 1) (hq : q.address.length = 1)
    (h : p.to_string = q.to_string) :
    p.address = q.address ∧ p.body = q.body := by
  have hd : p.to_string.data = q.to_string.data := by rw [h]
  have hp' : p.address.data.length = 1 := hp
  have hq' : q.address.data.length = 1 := hq
  obtain ⟨a, ha⟩ := List.length_eq_one.mp hp'
  obtain ⟨b, hb⟩ := List.length_eq_one.mp hq'
  have hslash : ("/" : String).data = ['/'] := rfl
  simp only [DTInstructionPacket.to_string, String.data_append, ha, hb,
    hslash] at hd
  have hdl :
      '/' :: (a :: (String.join (p.dtcommands.map DTCommand.to_string)).data) =
      '/' :: (b :: (String.join (q.dtcommands.map DTCommand.to_string)).data) := by
    simpa only [List.cons_append, List.nil_append, List.append_assoc] using hd
  obtain ⟨-, h2⟩ := List.cons.inj hdl
  obtain ⟨hab, h3⟩ := List.cons.inj h2
  exact ⟨String.ext (by rw [ha, hb, hab]), String.ext h3⟩

/-- C9 (witness): the amended theorem applied at two concrete equal packets. -/
theorem C9_witness :
    (DTInstructionPacket.address ⟨"1", [⟨"A", some "5"⟩]⟩).length = 1 ∧
    (DTInstructionPacket.address ⟨"1", [⟨"A5", none⟩]⟩).length = 1 ∧
    DTInstructionPacket.to_string ⟨"1", [⟨"A", some "5"⟩]⟩ =
      DTInstructionPacket.to_string ⟨"1", [⟨"A5", none⟩]⟩ ∧
    (DTInstructionPacket.address ⟨"1", [⟨"A", some "5"⟩]⟩ =
      DTInstructionPacket.address ⟨"1", [⟨"A5", none⟩]⟩ ∧
     DTInstructionPacket.body ⟨"1", [⟨"A", some "5"⟩]⟩ =
      DTInstructionPacket.body ⟨"1", [⟨"A5", none⟩]⟩) :=
  ⟨by decide, by decide, rfl,
    C9_encoding_determines_address_and_body _ _ (by decide) (by decide) rfl⟩

/-- C5 (counterexample): a reply whose stripped payload has fewer than 2
characters (here `"/0\r"`, which strips to the single character `"0"`) makes
`DTStatus.decode` raise an uncaught `IndexError` (the `except IndexError`
handler is commented out), which is not the graceful `None`/decode-failure
return the claim describes — and in particular not a `Truncated` error value. -/
theorem C5_counterexample :
    dtStatusDecode (some "/0\r") = .indexErrorRaised ∧
    DTDecodeOutcome.indexErrorRaised ≠ DTDecodeOutcome.noneReturned := by
  exact ⟨by decide, by decide⟩

/-- C5 (amended): a stripped payload of fewer than 2 characters makes
`DTStatus.decode` raise an uncaught `IndexError` (rather than return a decode
failure value); an undecodable byte string (`response = None`) returns `None`;
and in neither case is a partially-decoded reply produced: a `reply` outcome
implies at least 2 stripped characters. -/
theorem C5_decode_failure_modes :
    (∀ s : String, (pyStripReply s).length < 2 →
        dtStatusDecode (some s) = .indexErrorRaised) ∧
    dtStatusDecode none = .noneReturned ∧
    (∀ (s : String) (a b : Char) (d : String),
        dtStatusDecode (some s) = .reply a b d → 2 ≤ (pyStripReply s).length) := by
  refine ⟨?_, rfl, ?_⟩
  · intro s h
    rcases hs : pyStripReply s with _ | ⟨a, _ | ⟨b, t⟩⟩
    · simp only [dtStatusDecode, hs]
    · simp only [dtStatusDecode, hs]
    · exfalso
      rw [hs] at h
      simp only [List.length_cons] at h
      omega
  · intro s a b d hr
    rcases hs : pyStripReply s with _ | ⟨x, _ | ⟨y, t⟩⟩
    · simp only [dtStatusDecode, hs] at hr
      exact DTDecodeOutcome.noConfusion hr
    · simp only [dtStatusDecode, hs] at hr
      exact DTDecodeOutcome.noConfusion hr
    · simp only [List.length_cons]
      omega

/-- C5 (witness): the amended theorem applied at the concrete short reply. -/
theorem C5_witness :
    (pyStripReply "/0\r").length < 2 ∧
    dtStatusDecode (some "/0\r") = .indexErrorRaised :=
  ⟨by decide, C5_decode_failure_modes.1 "/0\r" (by decide)⟩

/-- C3: when the computed step count exceeds the pump's remaining steps,
`C3000Controller.pump` returns `False` with the device state unchanged and
with no motion, valve, or velocity command issued (the only device interaction
is the plunger-position query inside `is_volume_pumpable`). -/
theorem C3_pump_fails_closed (c : C3000) (d : PumpDev) (v : ℚ)
    (fv : Option Char) (sp : Option ℤ) (w s : Bool)
    (h : (c.number_of_steps : ℤ) - d.current_steps < volume_to_step c v) :
    C3000pump c d v fv sp w s = (.ok false, d, [.reportPlungerPosition]) := by
  have hnot : ¬ (volume_to_step c v ≤ (c.number_of_steps : ℤ) - d.current_steps) :=
    not_le.mpr h
  simp [C3000pump, hnot]

/-- C3 (witness): requesting 2 ml from a 1 ml pump (48000 steps against 24000
remaining) returns `False` and issues nothing. -/
theorem C3_witness :
    ((pumpConfig24.number_of_steps : ℤ) - devIdle.current_steps <
      volume_to_step pumpConfig24 2) ∧
    C3000pump pumpConfig24 devIdle 2 none none false true =
      (.ok false, devIdle, [.reportPlungerPosition]) := by
  have h : (pumpConfig24.number_of_steps : ℤ) - devIdle.current_steps <
      volume_to_step pumpConfig24 2 := by
    norm_num [volume_to_step, pyRound, pumpConfig24, devIdle]
  exact ⟨h, C3_pump_fails_closed pumpConfig24 devIdle 2 none none false true h⟩

/-- Half-even rounding of a nonnegative rational is nonnegative. -/
lemma pyRound_nonneg {q : ℚ} (h : 0 ≤ q) : 0 ≤ pyRound q := by
  have hf : (0:ℤ) ≤ ⌊q⌋ := Int.floor_nonneg.mpr h
  simp only [pyRound]
  split_ifs <;> omega

/-- Half-even rounding respects integer upper bounds. -/
lemma pyRound_le_int {q : ℚ} {n : ℤ} (h : q ≤ (n : ℚ)) : pyRound q ≤ n := by
  have hf : ⌊q⌋ ≤ n := by
    have h2 := Int.floor_le_floor h
    simpa using h2
  have hf1 : ¬ (q - ⌊q⌋ < 1/2) → ⌊q⌋ + 1 ≤ n := by
    intro hr
    push_neg at hr
    have h2 : (⌊q⌋ : ℚ) + 1/2 ≤ q := by linarith
    have h4 : (⌊q⌋ : ℚ) < (n : ℚ) := by linarith
    have h5 : ⌊q⌋ < n := by exact_mod_cast h4
    omega
  simp only [pyRound]
  split_ifs with h1 h2 h3
  · exact hf
  · exact hf1 h1
  · exact hf
  · exact hf1 h1

/-- Inversion of a successful `mkC3000` construction: the fields recorded by
`C3000Controller.__init__`. -/
lemma mkC3000_ok {V : ℚ} {mode : ℕ} {tv : ℤ} {c : C3000}
    (h : mkC3000 V mode tv = .ok c) :
    c.total_volume = V ∧
    c.steps_per_ml = pyTrunc ((c.number_of_steps : ℚ) / V) ∧
    (c.number_of_steps = 3000 ∨ c.number_of_steps = 24000) ∧ V ≠ 0 := by
  obtain ⟨cm, cn, cv, cs, cd⟩ := c
  unfold mkC3000 at h
  by_cases hm0 : mode = MICRO_STEP_MODE_0
  · subst hm0
    by_cases hV : V = 0
    · simp [hV, bind, Except.bind, pure, Except.pure, MICRO_STEP_MODE_0] at h
    · simp [if_neg hV, bind, Except.bind, pure, Except.pure,
        validate_top_velocity, MICRO_STEP_MODE_0, MICRO_STEP_MODE_2,
        N_STEP_MICRO_STEP_MODE_0, C3000.mk.injEq] at h
      obtain ⟨h1, h2, h3, h4, h5⟩ := h
      subst h1
      subst h2
      subst h3
      subst h4
      subst h5
      exact ⟨rfl, rfl, .inl rfl, hV⟩
  · by_cases hm2 : mode = MICRO_STEP_MODE_2
    · subst hm2
      by_cases hV : V = 0
      · simp [hm0, hV, bind, Except.bind, pure, Except.pure,
          MICRO_STEP_MODE_0, MICRO_STEP_MODE_2] at h
      · simp [if_neg hV, bind, Except.bind, pure, Except.pure,
          validate_top_velocity, MICRO_STEP_MODE_0, MICRO_STEP_MODE_2,
          N_STEP_MICRO_STEP_MODE_2, C3000.mk.injEq] at h
        obtain ⟨h1, h2, h3, h4, h5⟩ := h
        subst h1
        subst h2
        subst h3
        subst h4
        subst h5
        exact ⟨rfl, rfl, .inr rfl, hV⟩
    · simp [hm0, hm2, bind, Except.bind] at h

/-- C7: `volume_to_step(ml) = round(ml * steps_per_ml)` and
`step_to_volume(step) = step / steps_per_ml` with no rounding; for
`total_volume = 1.0` in microstep mode 2 the construction yields
`steps_per_ml = 24000`, `volume_to_step(0.5) = 12000` and
`step_to_volume(12000) = 0.5`; and for every constructed controller with a
positive volume, every input in `[0, total_volume]` maps into
`[0, number_of_steps]`. -/
theorem C7_volume_step_conversions :
    (∀ (c : C3000) (ml : ℚ) (step : ℤ),
        volume_to_step c ml = pyRound (ml * c.steps_per_ml) ∧
        step_to_volume c step = (step : ℚ) / (c.steps_per_ml : ℚ)) ∧
    (mkC3000 1 MICRO_STEP_MODE_2 6000 = .ok pumpConfig24 ∧
      pumpConfig24.steps_per_ml = 24000 ∧
      volume_to_step pumpConfig24 (1/2) = 12000 ∧
      step_to_volume pumpConfig24 12000 = 1/2) ∧
    (∀ (V : ℚ) (mode : ℕ) (tv : ℤ) (c : C3000), 0 < V →
      mkC3000 V mode tv = .ok c → ∀ ml : ℚ, 0 ≤ ml → ml ≤ c.total_volume →
      0 ≤ volume_to_step c ml ∧ volume_to_step c ml ≤ (c.number_of_steps : ℤ)) := by
  refine ⟨fun c ml step => ⟨rfl, rfl⟩, ⟨?_, rfl, ?_, ?_⟩, ?_⟩
  · simp only [mkC3000, MICRO_STEP_MODE_2, MICRO_STEP_MODE_0,
      N_STEP_MICRO_STEP_MODE_2, validate_top_velocity,
      MAX_TOP_VELOCITY_MICRO_STEP_MODE_2, bind, Except.bind, pure, Except.pure,
      pumpConfig24]
    norm_num [pyTrunc]
  · norm_num [volume_to_step, pumpConfig24, pyRound, Int.floor_intCast]
  · norm_num [step_to_volume, pumpConfig24]
  · intro V mode tv c hV hmk ml h0 h1
    obtain ⟨hTV, hSPM, hNOS, -⟩ := mkC3000_ok hmk
    have hNpos : 0 < ((c.number_of_steps : ℕ) : ℚ) := by
      rcases hNOS with h | h <;> rw [h] <;> norm_num
    have hdivpos : 0 ≤ (c.number_of_steps : ℚ) / V := le_of_lt (div_pos hNpos hV)
    have hspm : c.steps_per_ml = ⌊(c.number_of_steps : ℚ) / V⌋ := by
      rw [hSPM, pyTrunc, if_pos hdivpos]
    have hspm0 : (0 : ℤ) ≤ c.steps_per_ml := by
      rw [hspm]
      exact Int.floor_nonneg.mpr hdivpos
    have hspm0q : (0 : ℚ) ≤ (c.steps_per_ml : ℚ) := by exact_mod_cast hspm0
    constructor
    · exact pyRound_nonneg (mul_nonneg h0 hspm0q)
    · have hub : ml * (c.steps_per_ml : ℚ) ≤ ((c.number_of_steps : ℤ) : ℚ) := by
        have h2 : ml * (c.steps_per_ml : ℚ) ≤ V * (c.steps_per_ml : ℚ) := by
          apply mul_le_mul_of_nonneg_right _ hspm0q
          rw [hTV] at h1
          exact h1
        have h3 : (c.steps_per_ml : ℚ) ≤ (c.number_of_steps : ℚ) / V := by
          rw [hspm]
          exact Int.floor_le _
        have h4 : V * (c.steps_per_ml : ℚ) ≤ V * ((c.number_of_steps : ℚ) / V) :=
          mul_le_mul_of_nonneg_left h3 (le_of_lt hV)
        have h5 : V * ((c.number_of_steps : ℚ) / V) = (c.number_of_steps : ℚ) := by
          field_simp
        push_cast
        calc ml * (c.steps_per_ml : ℚ) ≤ V * (c.steps_per_ml : ℚ) := h2
          _ ≤ V * ((c.number_of_steps : ℚ) / V) := h4
          _ = (c.number_of_steps : ℚ) := h5
      exact pyRound_le_int hub

/-- C7 (witness): the range bound applied at `total_volume = 2.0`, `ml = 1`. -/
theorem C7_witness :
    (0 : ℚ) < 2 ∧ mkC3000 2 MICRO_STEP_MODE_2 6000 = .ok pumpConfigA ∧
    (0 : ℚ) ≤ 1 ∧ (1 : ℚ) ≤ pumpConfigA.total_volume ∧
    (0 ≤ volume_to_step pumpConfigA 1 ∧
      volume_to_step pumpConfigA 1 ≤ (pumpConfigA.number_of_steps : ℤ)) := by
  have hmk : mkC3000 2 MICRO_STEP_MODE_2 6000 = .ok pumpConfigA := by
    simp only [mkC3000, MICRO_STEP_MODE_2, MICRO_STEP_MODE_0,
      N_STEP_MICRO_STEP_MODE_2, validate_top_velocity,
      MAX_TOP_VELOCITY_MICRO_STEP_MODE_2, bind, Except.bind, pure, Except.pure,
      pumpConfigA]
    norm_num [pyTrunc]
  exact ⟨by norm_num, hmk, by norm_num, by norm_num [pumpConfigA],
    C7_volume_step_conversions.2.2 2 MICRO_STEP_MODE_2 6000 pumpConfigA
      (by norm_num) hmk 1 (by norm_num) (by norm_num [pumpConfigA])⟩

/-- C8 (counterexample): with `total_volume = 48000.0` (greater than the 24000
steps of mode 2) construction succeeds and records `steps_per_ml = 0`; it does
not fail, contradicting the claimed construction-time invariant. -/
theorem C8_counterexample :
    mkC3000 48000 MICRO_STEP_MODE_2 6000 = .ok pumpConfigOversize ∧
    pumpConfigOversize.steps_per_ml = 0 ∧
    ¬ (1 ≤ pumpConfigOversize.steps_per_ml) := by
  refine ⟨?_, rfl, by decide⟩
  simp only [mkC3000, MICRO_STEP_MODE_2, MICRO_STEP_MODE_0,
    N_STEP_MICRO_STEP_MODE_2, validate_top_velocity,
    MAX_TOP_VELOCITY_MICRO_STEP_MODE_2, bind, Except.bind, pure, Except.pure,
    pumpConfigOversize]
  norm_num [pyTrunc]

/-- C8 (amended): `steps_per_ml` is `int(number_of_steps / total_volume)`
(= floor for a positive volume), and `steps_per_ml ≥ 1` holds exactly when
`total_volume ≤ number_of_steps`; construction performs no validation of this,
succeeding with `steps_per_ml = 0` for an oversized volume. -/
theorem C8_steps_per_ml_floor (V : ℚ) (mode : ℕ) (tv : ℤ) (c : C3000)
    (hV : 0 < V) (h : mkC3000 V mode tv = .ok c) :
    c.steps_per_ml = ⌊(c.number_of_steps : ℚ) / V⌋ ∧
    (1 ≤ c.steps_per_ml ↔ V ≤ (c.number_of_steps : ℚ)) := by
  obtain ⟨hTV, hSPM, hNOS, -⟩ := mkC3000_ok h
  have hNpos : 0 < ((c.number_of_steps : ℕ) : ℚ) := by
    rcases hNOS with h' | h' <;> rw [h'] <;> norm_num
  have hdivpos : 0 ≤ (c.number_of_steps : ℚ) / V := le_of_lt (div_pos hNpos hV)
  have h1 : c.steps_per_ml = ⌊(c.number_of_steps : ℚ) / V⌋ := by
    rw [hSPM, pyTrunc, if_pos hdivpos]
  refine ⟨h1, ?_⟩
  rw [h1, Int.le_floor]
  push_cast
  exact one_le_div hV

/-- C8 (witness): the amended theorem applied at `total_volume = 2.0`. -/
theorem C8_witness :
    (0 : ℚ) < 2 ∧ mkC3000 2 MICRO_STEP_MODE_2 6000 = .ok pumpConfigA ∧
    (pumpConfigA.steps_per_ml = ⌊(pumpConfigA.number_of_steps : ℚ) / 2⌋ ∧
      (1 ≤ pumpConfigA.steps_per_ml ↔ (2 : ℚ) ≤ (pumpConfigA.number_of_steps : ℚ))) := by
  have hmk : mkC3000 2 MICRO_STEP_MODE_2 6000 = .ok pumpConfigA := by
    simp only [mkC3000, MICRO_STEP_MODE_2, MICRO_STEP_MODE_0,
      N_STEP_MICRO_STEP_MODE_2, validate_top_velocity,
      MAX_TOP_VELOCITY_MICRO_STEP_MODE_2, bind, Except.bind, pure, Except.pure,
      pumpConfigA]
    norm_num [pyTrunc]
  exact ⟨by norm_num, hmk,
    C8_steps_per_ml_floor 2 MICRO_STEP_MODE_2 6000 pumpConfigA (by norm_num) hmk⟩

/-- C10: in both supported microstep modes the two velocity conversions are
not mutual inverses: for a nonzero flowrate `f`,
`speed_to_flowrate (flowrate_to_speed f) = total_volume² / f`, and the
round trip returns `f` exactly when `total_volume² = f²`. -/
theorem C10_velocity_round_trip (c : C3000) (f : ℚ) (hf : f ≠ 0)
    (hm : c.micro_step_mode = MICRO_STEP_MODE_0 ∨
      c.micro_step_mode = MICRO_STEP_MODE_2) :
    (flowrate_to_speed c f).bind (speed_to_flowrate c) =
      .ok (c.total_volume ^ 2 / f) ∧
    (c.total_volume ^ 2 / f = f ↔ c.total_volume ^ 2 = f ^ 2) := by
  constructor
  · rcases hm with h | h <;>
      simp [flowrate_to_speed, speed_to_flowrate, h, hf, Except.bind,
        MICRO_STEP_MODE_0, MICRO_STEP_MODE_2] <;>
      · field_simp
        ring
  · rw [div_eq_iff hf, pow_two, pow_two]

/-- C10 (witness): the round trip at `total_volume = 2.0`, `f = 3`. -/
theorem C10_witness :
    (3 : ℚ) ≠ 0 ∧
    (pumpConfigA.micro_step_mode = MICRO_STEP_MODE_0 ∨
      pumpConfigA.micro_step_mode = MICRO_STEP_MODE_2) ∧
    ((flowrate_to_speed pumpConfigA 3).bind (speed_to_flowrate pumpConfigA) =
        .ok (pumpConfigA.total_volume ^ 2 / 3) ∧
      (pumpConfigA.total_volume ^ 2 / 3 = 3 ↔
        pumpConfigA.total_volume ^ 2 = 3 ^ 2)) :=
  ⟨by norm_num, .inr rfl, C10_velocity_round_trip pumpConfigA 3 (by norm_num) (.inr rfl)⟩

/-- C4 (code bug): with a device answering a valid idle-error-free status only
at dial position `'C'` (address `'='`), `autodiscover_address` raises
`PumpCommunicationError` at the first silent candidate (dial `'0'`) instead of
skipping to `'='`; and even with a device answering validly at every
candidate, it binds nothing (falls off the loop returning `None`): the code
compares the `(status, data)` tuple against the status strings (never equal)
and would then consult `pump_protocol.ERROR_STATUSES_IDLE`, which does not
exist in the source. -/
theorem C4_discovery_never_binds :
    autodiscover_address deviceOnlyAtDialC = .error .communicationError ∧
    autodiscover_address deviceOnlyAtDialC ≠ .ok (some '=') ∧
    autodiscover_address deviceAlwaysIdle = .ok none := by
  have h1 : autodiscover_address deviceOnlyAtDialC = .error .communicationError := rfl
  refine ⟨h1, ?_, rfl⟩
  rw [h1]
  exact fun h => Except.noConfusion h

/-- Valve-preserving update: replacing the device state recorded under one
name leaves every lookup's success unchanged (only the stored value moves). -/
lemma lookupPump_updatePump_isSome (pumps : PumpMap) (n : String) (d : PumpDev)
    (m : String) :
    (lookupPump (updatePump pumps n d) m).isSome = (lookupPump pumps m).isSome := by
  induction pumps with
  | nil => rfl
  | cons e es ih =>
    obtain ⟨k, c0, d0⟩ := e
    by_cases hk : k = n <;> by_cases hm : k = m <;>
      simp only [updatePump, lookupPump, List.map_cons, List.find?_cons,
        hk, hm, if_pos, if_neg, decide_True, decide_False] <;>
      simp_all [updatePump, lookupPump]

/-- When every listed name is present and the operation never raises,
`apply_command_to_pumps` returns a result mapping whose keys are exactly the
listed names in order. -/
lemma apply_command_all_present {α : Type}
    (op : C3000 → PumpDev → PyRes α × PumpDev × List Ev)
    (hop : ∀ c d, ∃ a, (op c d).1 = .ok a) :
    ∀ (names : List String) (pumps : PumpMap),
      (∀ n ∈ names, (lookupPump pumps n).isSome = true) →
      ∃ ras, (apply_command_to_pumps pumps names op).1 = .ok ras ∧
        ras.map Prod.fst = names := by
  intro names
  induction names with
  | nil => exact fun pumps _ => ⟨[], rfl, rfl⟩
  | cons n rest ih =>
    intro pumps h
    have hn := h n (List.mem_cons_self n rest)
    rw [Option.isSome_iff_exists] at hn
    obtain ⟨⟨c, d⟩, hcd⟩ := hn
    obtain ⟨a, ha⟩ := hop c d
    obtain ⟨ras, hr1, hr2⟩ := ih (updatePump pumps n ((op c d).2.1))
      (fun m hm => by
        rw [lookupPump_updatePump_isSome]
        exact h m (List.mem_cons_of_mem _ hm))
    refine ⟨(n, a) :: ras, ?_, by simp [hr2]⟩
    rcases hx : op c d with ⟨r, d', evs⟩
    rw [hx] at ha
    simp only at ha
    subst ha
    rcases happly : apply_command_to_pumps (updatePump pumps n d') rest op
      with ⟨res2, pumps2, evs2⟩
    rw [hx] at hr1
    simp only at hr1
    rw [happly] at hr1
    simp only at hr1
    simp only [apply_command_to_pumps, hcd, hx, happly, hr1]

/-- C6: `apply_command_to_pumps` does NOT silently skip absent names — an
absent name raises `KeyError` and aborts the fan-out (conjunct 2); when every
listed name is present and the operation succeeds, it invokes the operation on
each listed pump and returns a name → result mapping keyed by exactly the
listed names (conjunct 1). It is `get_pumps` that silently skips an absent
name (conjuncts 3 and 4). -/
theorem C6_fanout_membership :
    (∀ (α : Type) (op : C3000 → PumpDev → PyRes α × PumpDev × List Ev),
      (∀ c d, ∃ a, (op c d).1 = .ok a) →
      ∀ (names : List String) (pumps : PumpMap),
        (∀ n ∈ names, (lookupPump pumps n).isSome = true) →
        ∃ ras, (apply_command_to_pumps pumps names op).1 = .ok ras ∧
          ras.map Prod.fst = names) ∧
    (∀ (α : Type) (op : C3000 → PumpDev → PyRes α × PumpDev × List Ev)
        (pumps : PumpMap) (n : String) (names : List String),
      lookupPump pumps n = none →
      (apply_command_to_pumps pumps (n :: names) op).1 = .error .keyError) ∧
    (∀ (pumps : PumpMap) (n : String) (names : List String),
      lookupPump pumps n = none →
      get_pumps pumps (n :: names) = get_pumps pumps names) ∧
    (∀ (pumps : PumpMap) (n : String) (names : List String) (p : C3000 × PumpDev),
      lookupPump pumps n = some p →
      get_pumps pumps (n :: names) = p :: get_pumps pumps names) := by
  refine ⟨fun α op hop names pumps h => apply_command_all_present op hop names pumps h,
    ?_, ?_, ?_⟩
  · intro α op pumps n names h
    simp [apply_command_to_pumps, h]
  · intro pumps n names h
    simp [get_pumps, List.filterMap_cons, h]
  · intro pumps n names p h
    simp [get_pumps, List.filterMap_cons, h]

/-- C6 (counterexample): with pump set `{A, B}`, fanning out over
`["A", "ghost"]` raises `KeyError` instead of skipping `"ghost"` — while
`get_pumps` on the same list does skip it. -/
theorem C6_counterexample :
    (apply_command_to_pumps scenarioPumps ["A", "ghost"] wait_fanout_op).1 =
      .error .keyError ∧
    get_pumps scenarioPumps ["A", "ghost"] = [(pumpConfigA, devIdle)] :=
  ⟨rfl, rfl⟩

/-- C6 (witness): the present-names conjunct applied to the concrete two-pump
set with the `wait_till_ready` operation. -/
theorem C6_witness :
    (∀ n ∈ (["A", "B"] : List String), (lookupPump scenarioPumps n).isSome = true) ∧
    (∃ ras, (apply_command_to_pumps scenarioPumps ["A", "B"] wait_fanout_op).1 =
      .ok ras ∧ ras.map Prod.fst = ["A", "B"]) := by
  have hmem : ∀ n ∈ (["A", "B"] : List String),
      (lookupPump scenarioPumps n).isSome = true := by
    intro n hn
    simp only [List.mem_cons, List.not_mem_nil, or_false] at hn
    rcases hn with rfl | rfl <;> rfl
  exact ⟨hmem, C6_fanout_membership.1 Unit wait_fanout_op
    (fun c d => ⟨(), rfl⟩) ["A", "B"] scenarioPumps hmem⟩

/-- Against a device that never reports the target position, the secure retry
loop consumes its whole attempt budget — one query and one move per attempt —
and then raises `ControllerRepeatedError`. -/
lemma svpLoop_never_target (vr : ℕ → Char) (target : Char)
    (hknown : is_known_valve_position target = true)
    (h : ∀ i, ∃ p, get_valve_position_decode (vr i) = some p ∧ p ≠ target) :
    ∀ (fuel i : ℕ),
      (svpLoop vr target true i fuel).1 = .error .controllerRepeatedError ∧
      countValveQueries (svpLoop vr target true i fuel).2 = fuel ∧
      countValveMoves (svpLoop vr target true i fuel).2 = fuel := by
  intro fuel
  induction fuel with
  | zero => exact fun i => ⟨rfl, rfl, rfl⟩
  | succ f ih =>
    intro i
    obtain ⟨p, hp, hne⟩ := h i
    obtain ⟨ih1, ih2, ih3⟩ := ih (i + 1)
    rcases hx : svpLoop vr target true (i + 1) f with ⟨res, evs⟩
    rw [hx] at ih1 ih2 ih3
    simp only at ih1 ih2 ih3
    simp only [svpLoop, hp, hne, hknown, if_true, if_false, ite_true, ite_false,
      if_neg hne, hx]
    refine ⟨ih1, ?_, ?_⟩
    · simp only [countValveQueries, List.countP_cons] at ih2 ⊢
      simp [ih2]
    · simp only [countValveMoves, List.countP_cons] at ih3 ⊢
      simp [ih3]

/-- C2: with a valid target, (1) against a device that never reports the
target, the secure loop performs exactly `MAX_REPEAT_OPERATION = 10` attempts
— 10 queries and 10 move commands — and then raises
`ControllerRepeatedError`, never fewer, never more; (2) with `secure = False`
and a first report differing from the target, the move command is issued once
and `True` is returned without verification; (3) whenever the first report
already equals the target, `True` is returned immediately with no move
command, for either `secure` value. -/
theorem C2_set_valve_position (valve_replies : ℕ → Char) (target : Char)
    (hknown : is_known_valve_position target = true) :
    ((∀ i, ∃ p, get_valve_position_decode (valve_replies i) = some p ∧ p ≠ target) →
      (set_valve_position valve_replies target MAX_REPEAT_OPERATION true).1 =
        .error .controllerRepeatedError ∧
      countValveQueries
        (set_valve_position valve_replies target MAX_REPEAT_OPERATION true).2 = 10 ∧
      countValveMoves
        (set_valve_position valve_replies target MAX_REPEAT_OPERATION true).2 = 10) ∧
    (∀ p, get_valve_position_decode (valve_replies 0) = some p → p ≠ target →
      set_valve_position valve_replies target MAX_REPEAT_OPERATION false =
        (.ok true, [.reportValvePosition (valve_replies 0), .valveMove target])) ∧
    (∀ secure : Bool, get_valve_position_decode (valve_replies 0) = some target →
      set_valve_position valve_replies target MAX_REPEAT_OPERATION secure =
        (.ok true, [.reportValvePosition (valve_replies 0)])) := by
  refine ⟨?_, ?_, ?_⟩
  · intro h
    exact svpLoop_never_target valve_replies target hknown h 10 0
  · intro p hp hne
    show svpLoop valve_replies target false 0 (9 + 1) = _
    simp [svpLoop, hp, hne, hknown]
  · intro secure hp
    show svpLoop valve_replies target secure 0 (9 + 1) = _
    simp [svpLoop, hp]

/-- C2 (witness): a device that always reports raw position `'i'` (input)
while the target is output exhausts exactly 10 attempts. -/
theorem C2_witness :
    is_known_valve_position 'O' = true ∧
    (set_valve_position (fun _ => 'i') 'O' MAX_REPEAT_OPERATION true).1 =
      .error .controllerRepeatedError ∧
    countValveQueries
      (set_valve_position (fun _ => 'i') 'O' MAX_REPEAT_OPERATION true).2 = 10 ∧
    countValveMoves
      (set_valve_position (fun _ => 'i') 'O' MAX_REPEAT_OPERATION true).2 = 10 := by
  have hk : is_known_valve_position 'O' = true := by decide
  have h := (C2_set_valve_position (fun _ => 'i') 'O' hk).1
    (fun i => ⟨'I', rfl, by decide⟩)
  exact ⟨hk, h.1, h.2.1, h.2.2⟩

/-- Folding the orchestrator's chunk update over a list starting from a
finite accumulator computes the running minimum. -/
lemma foldl_min_option_map {β : Type} (f : β → ℚ) (t : List β) : ∀ a : ℚ,
    t.foldl (fun acc p =>
      match acc with
      | none => some (f p)
      | some vt => some (min (f p) vt)) (some a) =
    some ((t.map f).foldl min a) := by
  induction t with
  | nil => exact fun a => rfl
  | cons x s ih =>
    intro a
    simp only [List.foldl_cons, List.map_cons]
    rw [ih (min (f x) a), min_comm (f x) a]

/-- C1 (counterexample): the spec's §8.6 scenario — pumps with remaining
volumes 2.0 and 5.0 asked to transfer 6.0 — does not execute chunks 2.0 then
4.0: the group pump phase raises `TypeError` (its velocity fan-out calls
`ensure_default_top_velocity` with a `secure=` keyword the method does not
accept), and the device trace stays empty — no pump command is ever issued. -/
theorem C1_counterexample :
    (multi_transfer scenarioPumps ["A", "B"] 6 'I' 'O' none none true 100).1 =
      .error .typeError ∧
    (multi_transfer scenarioPumps ["A", "B"] 6 'I' 'O' none none true 100).2.2 =
      [] := by
  constructor <;>
    simp [multi_transfer, multi_pump, mseq, apply_command_to_pumps,
      velocity_fanout_op, lookupPump, scenarioPumps, List.find?]

/-- C1 (amended): the synchronized chunk is computed exactly as the minimum,
over the named pumps present in the mapping, of (requested volume, that pump's
remaining volume) — in the 2.0/5.0 scenario the first chunk is 2.0 (and a
remaining request of 4.0 would again be bounded to 2.0, never 4.0) — but the
group pump phase then raises `TypeError` from its velocity fan-out, so no
chunk is ever executed and no pump command reaches any device. -/
theorem C1_group_transfer_chunking :
    (∀ (pumps : PumpMap) (names : List String) (v : ℚ),
      groupChunk pumps names v =
        ((get_pumps pumps names).map
          (fun p => min v (remaining_volume p.1 p.2))).min?) ∧
    groupChunk scenarioPumps ["A", "B"] 6 = some 2 ∧
    groupChunk scenarioPumps ["A", "B"] 4 = some 2 ∧
    (multi_transfer scenarioPumps ["A", "B"] 6 'I' 'O' none none true 100).1 =
      .error .typeError := by
  refine ⟨?_, ?_, ?_, ?_⟩
  · intro pumps names v
    unfold groupChunk
    cases hl : get_pumps pumps names with
    | nil => rfl
    | cons p t =>
      simp only [List.foldl_cons, List.map_cons, List.min?]
      exact foldl_min_option_map (fun p => min v (remaining_volume p.1 p.2)) t
        (min v (remaining_volume p.1 p.2))
  · have h : get_pumps scenarioPumps ["A", "B"] =
        [(pumpConfigA, devIdle), (pumpConfigB, devIdle)] := rfl
    rw [groupChunk, h]
    norm_num [remaining_volume, step_to_volume, pumpConfigA, pumpConfigB,
      devIdle, min_def]
  · have h : get_pumps scenarioPumps ["A", "B"] =
        [(pumpConfigA, devIdle), (pumpConfigB, devIdle)] := rfl
    rw [groupChunk, h]
    norm_num [remaining_volume, step_to_volume, pumpConfigA, pumpConfigB,
      devIdle, min_def]
  · simp [multi_transfer, multi_pump, mseq, apply_command_to_pumps,
      velocity_fanout_op, lookupPump, scenarioPumps, List.find?]

end Pycont
